import Mathlib

/-
Verification of the Flex Reflow Engine of react-three-flex.

The engine (src/Flex.tsx) keeps a registry of boxes, each owning a yoga
solver node, batches reflow requests behind a dirty flag checked once per
frame, infers missing box sizes, drives the external flexbox solver and
maps its 2D output to 3D local positions.

The embedding below models JavaScript numbers as rationals, yoga nodes by
their mutable size state, the external solver as a deterministic function
parameter, and bounding-box measurement as per-box measured extents.
Helpers that live in util.ts (absent from the sources) are modelled from
the specification and say so in their doc comments.
-/

namespace ReactThreeFlex

/-- The three spatial axes of the 3D space. -/
inductive Axis
  | x | y | z
  deriving DecidableEq, Repr

/-- The three axis-pair planes a flex container can lay out on
(the `plane` prop of the container: one of "xy", "yz", "xz"). -/
inductive FlexPlane
  | xy | yz | xz
  deriving DecidableEq, Repr

/-- Main axis of a plane: `plane[0]` in Flex.tsx. -/
def mainAxis : FlexPlane → Axis
  | .xy => .x
  | .yz => .y
  | .xz => .x

/-- Cross axis of a plane: `plane[1]` in Flex.tsx. -/
def crossAxis : FlexPlane → Axis
  | .xy => .y
  | .yz => .z
  | .xz => .z

/-- Modelled from the spec: `getDepthAxis` lives in util.ts, which is not
among the sources. The spec defines the depth axis as the plane's implicit
third spatial axis. -/
def getDepthAxis : FlexPlane → Axis
  | .xy => .z
  | .yz => .x
  | .xz => .y

/-- A three.js Vector3, with rational components. -/
structure Vector3 where
  x : ℚ
  y : ℚ
  z : ℚ
  deriving DecidableEq, Repr

/-- Assign one named component of a vector. -/
def Vector3.set (v : Vector3) (a : Axis) (q : ℚ) : Vector3 :=
  match a with
  | .x => { v with x := q }
  | .y => { v with y := q }
  | .z => { v with z := q }

/-- Read one named component of a vector. -/
def Vector3.comp (v : Vector3) : Axis → ℚ
  | .x => v.x
  | .y => v.y
  | .z => v.z

/-- Modelled from the spec: `vectorFromObject` lives in util.ts, which is
not among the sources. It turns an object with one entry per axis name
into a vector; the reflow step builds that object by assigning the main,
cross and depth axis keys in that order (later keys overwrite earlier
ones, as in a JavaScript object literal). -/
def vectorFromObject (main cross depth : Axis) (mv cv dv : ℚ) : Vector3 :=
  (((⟨0, 0, 0⟩ : Vector3).set main mv).set cross cv).set depth dv

/-- A JavaScript value held by a flex size property (`width` / `height` of
`R3FlexProps`): a number, a string token such as "50%", or undefined. -/
inductive FlexVal
  | num (q : ℚ)
  | str (s : String)
  | undef
  deriving DecidableEq, Repr

/-- JavaScript truthiness of such a value (`0`, `""` and `undefined` are
falsy). -/
def jsTruthy : FlexVal → Bool
  | .num q => q != 0
  | .str s => s != ""
  | .undef => false

/-- JavaScript `a || b` on such values. -/
def jsOr (a b : FlexVal) : FlexVal :=
  if jsTruthy a then a else b

/-- `typeof v === 'number' ? v * scaleFactor : v` — the scaling applied to
an explicit width/height before it is written to the yoga node. -/
def scaledVal (v : FlexVal) (scaleFactor : ℚ) : FlexVal :=
  match v with
  | .num q => .num (q * scaleFactor)
  | v => v

/-- The slice of `R3FlexProps` the reflow size pass reads. -/
structure R3FlexProps where
  width : FlexVal
  height : FlexVal
  deriving DecidableEq, Repr

/-- One record of the box registry (`BoxesItem` in Flex.tsx). `node` and
`group` are identities of the yoga node and of the wrapper group. -/
structure BoxesItem where
  node : Nat
  group : Nat
  flexProps : R3FlexProps
  centerAnchor : Bool
  deriving DecidableEq, Repr

/-- The `findIndex((b) => b.node === node)` call shared by `registerBox`
and `unregisterBox`: index of the first record with this node, if any. -/
def findBoxIdx (node : Nat) : List BoxesItem → Option Nat
  | [] => none
  | b :: bs =>
      if b.node == node then some 0 else (findBoxIdx node bs).map (· + 1)

/-- `registerBox` of Flex.tsx: find the record with the same node; update
it in place when found, push a new record otherwise. Returns the new
registry and the boolean result (`true` = newly inserted). -/
def registerBox (boxes : List BoxesItem) (node : Nat) (group : Nat)
    (flexProps : R3FlexProps) (centerAnchor : Bool) :
    List BoxesItem × Bool :=
  let boxItem : BoxesItem := ⟨node, group, flexProps, centerAnchor⟩
  match findBoxIdx node boxes with
  | some i => (boxes.set i boxItem, false)
  | none => (boxes ++ [boxItem], true)

/-- `unregisterBox` of Flex.tsx: find the record with the same node and
splice it out; do nothing when it is absent. -/
def unregisterBox (boxes : List BoxesItem) (node : Nat) : List BoxesItem :=
  match findBoxIdx node boxes with
  | some i => boxes.eraseIdx i
  | none => boxes

/-- The reflow scheduler state: the dirty flag (`dirtyRef`) plus a count
of recomputations performed, used to state coalescing. -/
structure SchedState where
  dirty : Bool
  reflowCount : Nat
  deriving DecidableEq, Repr

/-- `requestReflow` of Flex.tsx: set the dirty flag (and ask the renderer
for a tick, which the state machine does not track). -/
def requestReflow (s : SchedState) : SchedState :=
  { s with dirty := true }

/-- The `useFrame` callback of Flex.tsx: when the dirty flag is set, clear
it and run the recomputation. `sideEffectRequests` says whether this
recomputation itself calls `requestReflow` as a side effect. -/
def frameTick (sideEffectRequests : Bool) (s : SchedState) : SchedState :=
  if s.dirty then
    let s1 := { s with dirty := false }
    let s2 := { s1 with reflowCount := s1.reflowCount + 1 }
    if sideEffectRequests then requestReflow s2 else s2
  else s

/-- The solver-facing size state of a yoga node (what `setWidth` /
`setHeight` last wrote). -/
structure NodeSize where
  width : FlexVal
  height : FlexVal
  deriving DecidableEq, Repr

/-- A registered box as the reflow pass sees it: its flex props, its
center-anchor flag, its yoga node's child count, and the measured
bounding extents of its content (oriented measurement `getOBBSize` when
the root group resolves, axis-aligned fallback otherwise). -/
structure Box where
  flexProps : R3FlexProps
  centerAnchor : Bool
  childCount : Nat
  obbSize : Axis → ℚ
  aabbSize : Axis → ℚ

/-- The per-box size pass of `reflow` (Flex.tsx lines 296-316): explicit
width and height are scaled and written verbatim; otherwise a leaf node
gets its measured extent (with a falsy-or fallback per component); a node
with children is left untouched. Returns the node's new size state and
whether a bounding-extent measurement was performed. -/
def recalcBox (scaleFactor : ℚ) (main cross : Axis) (hasRootGroup : Bool)
    (b : Box) (ns : NodeSize) : NodeSize × Bool :=
  let scaledWidth := scaledVal b.flexProps.width scaleFactor
  let scaledHeight := scaledVal b.flexProps.height scaleFactor
  if scaledWidth ≠ FlexVal.undef ∧ scaledHeight ≠ FlexVal.undef then
    (⟨scaledWidth, scaledHeight⟩, false)
  else if b.childCount = 0 then
    let vec := if hasRootGroup then b.obbSize else b.aabbSize
    (⟨jsOr scaledWidth (.num (vec main * scaleFactor)),
      jsOr scaledHeight (.num (vec cross * scaleFactor))⟩, true)
  else
    (ns, false)

/-- The size pass over the whole registry, pairing each box with its
node's current size state. -/
def sizePass (scaleFactor : ℚ) (main cross : Axis) (hasRootGroup : Bool) :
    List Box → List NodeSize → List (NodeSize × Bool)
  | [], _ => []
  | _ :: _, [] => []
  | b :: bs, ns :: nss =>
      recalcBox scaleFactor main cross hasRootGroup b ns ::
        sizePass scaleFactor main cross hasRootGroup bs nss

/-- Modelled from the spec: `getRootShift` lives in util.ts, which is not
among the sources. When the container is center-anchored the shift moves
the whole computed layout by half the root's width/height along each axis
so children are laid out around the container's own origin; otherwise the
shift is zero. -/
def getRootShift (rootCenterAnchor : Bool) (rootWidth rootHeight : ℚ) :
    ℚ × ℚ :=
  if rootCenterAnchor then (-(rootWidth / 2), -(rootHeight / 2)) else (0, 0)

/-- A solver-computed layout of one node (`node.getComputedLayout()`). -/
structure YogaLayout where
  left : ℚ
  top : ℚ
  width : ℚ
  height : ℚ
  deriving DecidableEq, Repr

/-- The mapping from a box's computed layout to its 3D local position
(Flex.tsx lines 331-339): main axis gets the shifted left (plus half the
box width under center-anchoring), cross axis gets the negated shifted
top (plus half the box height under center-anchoring), both divided by
the scale factor; the depth axis is zero. -/
def boxPosition (plane : FlexPlane) (scaleFactor : ℚ)
    (rootCenterAnchor : Bool) (rootWidth rootHeight : ℚ)
    (centerAnchor : Bool) (l : YogaLayout) : Vector3 :=
  let shift := getRootShift rootCenterAnchor rootWidth rootHeight
  vectorFromObject (mainAxis plane) (crossAxis plane) (getDepthAxis plane)
    ((shift.1 + l.left + (if centerAnchor then l.width / 2 else 0)) /
      scaleFactor)
    (-((shift.2 + l.top + (if centerAnchor then l.height / 2 else 0)) /
      scaleFactor))
    0

/-- The running extent accumulator of the reposition loop
(`minX`, `minY`, `maxX`, `maxY`, all initialised to 0). -/
structure Extents where
  minX : ℚ
  minY : ℚ
  maxX : ℚ
  maxY : ℚ
  deriving DecidableEq, Repr

/-- One step of the reposition loop's extent tracking
(Flex.tsx lines 341-344). -/
def stepExtents (e : Extents) (l : YogaLayout) : Extents :=
  ⟨min e.minX l.left, min e.minY l.top,
   max e.maxX (l.left + l.width), max e.maxY (l.top + l.height)⟩

/-- The extents after the whole loop, starting from the zero-initialised
accumulator. -/
def layoutExtents (ls : List YogaLayout) : Extents :=
  ls.foldl stepExtents ⟨0, 0, 0, 0⟩

/-- The external flexbox solver: consumes the calculation arguments
(scaled available width and height; the layout direction is fixed per
snapshot and folded into the function) and the node sizes the size pass
wrote, and produces the computed root width/height and one computed
layout per box. The spec requires it to be deterministic, which a Lean
function is by construction. -/
structure SolverResult where
  rootWidth : ℚ
  rootHeight : ℚ
  layouts : List YogaLayout

def Solver : Type :=
  ℚ → ℚ → List NodeSize → SolverResult

/-- The per-container configuration `reflow` reads. -/
structure FlexConfig where
  plane : FlexPlane
  scaleFactor : ℚ
  rootCenterAnchor : Bool
  disableSizeRecalc : Bool
  flexWidth : ℚ
  flexHeight : ℚ
  hasOnReflow : Bool

/-- The size pass as `reflow` runs it: skipped entirely when
`disableSizeRecalc` is set. -/
def reflowPass (cfg : FlexConfig) (hasRootGroup : Bool)
    (boxes : List Box) (sizes : List NodeSize) : List (NodeSize × Bool) :=
  if cfg.disableSizeRecalc then sizes.map (fun ns => (ns, false))
  else
    sizePass cfg.scaleFactor (mainAxis cfg.plane) (crossAxis cfg.plane)
      hasRootGroup boxes sizes

/-- Everything one run of `reflow` produces: the node sizes after the
size pass, which boxes were measured, the local positions written to the
wrapper groups, and the list of `onReflow` invocations with their
arguments. -/
structure ReflowOutput where
  nodeSizes : List NodeSize
  measured : List Bool
  positions : List Vector3
  onReflowCalls : List (ℚ × ℚ)
  deriving DecidableEq, Repr

/-- `reflow` of Flex.tsx (lines 293-354) over one input snapshot: run the
size pass, invoke the solver with the plane-projected container size
times the scale factor, map every box's computed layout to a 3D position,
track the zero-seeded min/max extents, and notify `onReflow` (when
supplied) with the extent differences divided by the scale factor. -/
def reflow (cfg : FlexConfig) (hasRootGroup : Bool) (solver : Solver)
    (boxes : List Box) (sizes : List NodeSize) : ReflowOutput :=
  let passed := reflowPass cfg hasRootGroup boxes sizes
  let newSizes := passed.map Prod.fst
  let res := solver (cfg.flexWidth * cfg.scaleFactor)
    (cfg.flexHeight * cfg.scaleFactor) newSizes
  let pairs := boxes.zip res.layouts
  let positions := pairs.map fun p =>
    boxPosition cfg.plane cfg.scaleFactor cfg.rootCenterAnchor
      res.rootWidth res.rootHeight p.1.centerAnchor p.2
  let e := layoutExtents (pairs.map Prod.snd)
  let args := ((e.maxX - e.minX) / cfg.scaleFactor,
               (e.maxY - e.minY) / cfg.scaleFactor)
  ⟨newSizes, passed.map Prod.snd, positions,
   if cfg.hasOnReflow then [args] else []⟩

/-- The total width as the spec's words describe it: the maximum of
left+width over all boxes minus the minimum of left over all boxes,
divided by the scale factor; undefined when no box is registered. Kept
separate from the implementation's zero-seeded fold so the two can be
compared. -/
def specTotalWidth (ls : List YogaLayout) (scaleFactor : ℚ) : Option ℚ :=
  match ls with
  | [] => none
  | l0 :: rest =>
      some ((rest.foldl (fun a l => max a (l.left + l.width))
               (l0.left + l0.width) -
             rest.foldl (fun a l => min a l.left) l0.left) / scaleFactor)

/-- The total height as the spec's words describe it, analogously. -/
def specTotalHeight (ls : List YogaLayout) (scaleFactor : ℚ) : Option ℚ :=
  match ls with
  | [] => none
  | l0 :: rest =>
      some ((rest.foldl (fun a l => max a (l.top + l.height))
               (l0.top + l0.height) -
             rest.foldl (fun a l => min a l.top) l0.top) / scaleFactor)

/-! ### Helper lemmas -/

theorem requestReflow_iterate (n : Nat) (s : SchedState) (h : 1 ≤ n) :
    requestReflow^[n] s = ⟨true, s.reflowCount⟩ := by
  induction n with
  | zero => omega
  | succ m ih =>
    rw [Function.iterate_succ_apply']
    rcases Nat.eq_zero_or_pos m with h0 | hm
    · subst h0; rfl
    · rw [ih hm]; rfl

/-! ### Claims about the coordinate mapping -/

/-- Claim C1: the reflow step maps a box's solver layout to a 3D local
position whose main-axis component is (mainAxisShift + left + width/2 when
center-anchored) over the scale factor, whose cross-axis component is the
negation of (crossAxisShift + top + height/2 when center-anchored) over
the scale factor, and whose depth-axis component is zero; for plane xy,
scale factor 100, no centering and solver output (0, 0) the position is
(0, 0, 0), and increasing top strictly decreases the cross-axis
component. -/
theorem reflow_position_mapping :
    (∀ (p : FlexPlane) (sf : ℚ) (rca : Bool) (rw rh : ℚ) (ca : Bool)
        (l : YogaLayout),
        (boxPosition p sf rca rw rh ca l).comp (mainAxis p) =
          ((getRootShift rca rw rh).1 + l.left +
            (if ca then l.width / 2 else 0)) / sf ∧
        (boxPosition p sf rca rw rh ca l).comp (crossAxis p) =
          -(((getRootShift rca rw rh).2 + l.top +
            (if ca then l.height / 2 else 0)) / sf) ∧
        (boxPosition p sf rca rw rh ca l).comp (getDepthAxis p) = 0) ∧
    (∀ (rw rh w h : ℚ),
        boxPosition .xy 100 false rw rh false ⟨0, 0, w, h⟩ = ⟨0, 0, 0⟩) ∧
    (∀ (rw rh lf w h t t' : ℚ), t < t' →
        (boxPosition .xy 100 false rw rh false ⟨lf, t', w, h⟩).comp
            (crossAxis .xy) <
          (boxPosition .xy 100 false rw rh false ⟨lf, t, w, h⟩).comp
            (crossAxis .xy)) := by
  refine ⟨?_, ?_, ?_⟩
  · intro p sf rca rw rh ca l
    cases p <;>
      simp [boxPosition, vectorFromObject, Vector3.set, Vector3.comp,
        mainAxis, crossAxis, getDepthAxis]
  · intro rw rh w h
    simp [boxPosition, vectorFromObject, Vector3.set, Vector3.comp,
      mainAxis, crossAxis, getDepthAxis, getRootShift]
  · intro rw rh lf w h t t' ht
    simp only [boxPosition, vectorFromObject, Vector3.set, Vector3.comp,
      mainAxis, crossAxis, getDepthAxis, getRootShift, if_neg,
      Bool.false_eq_true, if_false]
    norm_num
    linarith

/-- Witness for C1 at concrete inputs: top 1 maps strictly below top 0. -/
theorem reflow_position_mapping_witness :
    (0 : ℚ) < 1 ∧
      (boxPosition .xy 100 false 0 0 false ⟨0, 1, 5, 5⟩).comp
          (crossAxis .xy) <
        (boxPosition .xy 100 false 0 0 false ⟨0, 0, 5, 5⟩).comp
          (crossAxis .xy) :=
  ⟨by norm_num, reflow_position_mapping.2.2 0 0 0 5 5 0 1 (by norm_num)⟩

/-- Claim C5: the root shift is zero on both axes without container-level
centering; with it, the shift moves the layout by half the solver-computed
root width/height per axis (toward the origin); consequently a single
center-anchored child at (left 0, top 0) whose size equals the root's
computed size ends at local position (0, 0, 0). -/
theorem root_shift_centering :
    (∀ rw rh : ℚ, getRootShift false rw rh = (0, 0)) ∧
    (∀ rw rh : ℚ, getRootShift true rw rh = (-(rw / 2), -(rh / 2))) ∧
    (∀ (p : FlexPlane) (sf w h : ℚ),
        boxPosition p sf true w h true ⟨0, 0, w, h⟩ = ⟨0, 0, 0⟩) := by
  refine ⟨fun rw rh => rfl, fun rw rh => rfl, ?_⟩
  intro p sf w h
  cases p <;>
    simp [boxPosition, vectorFromObject, Vector3.set, Vector3.comp,
      mainAxis, crossAxis, getDepthAxis, getRootShift]

/-! ### Claims about the reflow scheduler -/

/-- Claim C2: any positive number of reflow requests between two ticks
leads to exactly one recomputation by the per-tick check; when that
recomputation itself requests a reflow as a side effect, the dirty flag
ends the tick set — the request is not run synchronously in the same tick
and triggers exactly one recomputation on the next tick. -/
theorem reflow_request_coalescing (s : SchedState) (n : Nat) (h : 1 ≤ n) :
    frameTick false (requestReflow^[n] s) = ⟨false, s.reflowCount + 1⟩ ∧
    frameTick true (requestReflow^[n] s) = ⟨true, s.reflowCount + 1⟩ ∧
    frameTick false (frameTick true (requestReflow^[n] s)) =
      ⟨false, s.reflowCount + 2⟩ := by
  rw [requestReflow_iterate n s h]
  exact ⟨rfl, rfl, rfl⟩

/-- Witness for C2: three requests from a clean state, one recomputation
per tick. -/
theorem reflow_request_coalescing_witness :
    1 ≤ 3 ∧
      (frameTick false (requestReflow^[3] ⟨false, 0⟩) = ⟨false, 1⟩ ∧
       frameTick true (requestReflow^[3] ⟨false, 0⟩) = ⟨true, 1⟩ ∧
       frameTick false (frameTick true (requestReflow^[3] ⟨false, 0⟩)) =
         ⟨false, 2⟩) :=
  ⟨by decide, reflow_request_coalescing ⟨false, 0⟩ 3 (by decide)⟩

/-! ### Claims about the box registry -/

theorem findBoxIdx_of_not_mem (node : Nat) (boxes : List BoxesItem)
    (h : node ∉ boxes.map fun b => b.node) :
    findBoxIdx node boxes = none := by
  induction boxes with
  | nil => rfl
  | cons b bs ih =>
    simp only [List.map_cons, List.mem_cons] at h
    push_neg at h
    have hb : (b.node == node) = false :=
      beq_eq_false_iff_ne.mpr (Ne.symm h.1)
    simp [findBoxIdx, hb, ih h.2]

theorem findBoxIdx_append_first (node : Nat) (pre suf : List BoxesItem)
    (x : BoxesItem) (hpre : node ∉ pre.map fun b => b.node)
    (hx : x.node = node) :
    findBoxIdx node (pre ++ x :: suf) = some pre.length := by
  induction pre with
  | nil => simp [findBoxIdx, hx]
  | cons b bs ih =>
    simp only [List.map_cons, List.mem_cons] at hpre
    push_neg at hpre
    have hb : (b.node == node) = false :=
      beq_eq_false_iff_ne.mpr (Ne.symm hpre.1)
    simp [findBoxIdx, hb, ih hpre.2]

theorem set_append_cons (pre suf : List BoxesItem) (x y : BoxesItem) :
    (pre ++ x :: suf).set pre.length y = pre ++ y :: suf := by
  induction pre with
  | nil => rfl
  | cons b bs ih => simp [List.set, ih]

theorem eraseIdx_append_cons (pre suf : List BoxesItem) (x : BoxesItem) :
    (pre ++ x :: suf).eraseIdx pre.length = pre ++ suf := by
  induction pre with
  | nil => rfl
  | cons b bs ih => simp [List.eraseIdx, ih]

/-- Claim C3: registering a node for the first time appends a new record
and returns true; registering an already-present node replaces its record
at the same list index — every earlier and later record untouched, so
iteration order is preserved — returns false, and leaves the record count
unchanged. -/
theorem register_box_upsert (boxes pre suf : List BoxesItem)
    (node g g' : Nat) (fp fp' : R3FlexProps) (ca ca' : Bool)
    (x : BoxesItem)
    (hfresh : node ∉ boxes.map fun b => b.node)
    (hpre : node ∉ pre.map fun b => b.node)
    (hx : x.node = node) :
    registerBox boxes node g fp ca = (boxes ++ [⟨node, g, fp, ca⟩], true) ∧
    registerBox (pre ++ x :: suf) node g' fp' ca' =
      (pre ++ ⟨node, g', fp', ca'⟩ :: suf, false) ∧
    (registerBox (pre ++ x :: suf) node g' fp' ca').1.length =
      (pre ++ x :: suf).length := by
  have hfind := findBoxIdx_append_first node pre suf x hpre hx
  refine ⟨?_, ?_, ?_⟩
  · simp only [registerBox, findBoxIdx_of_not_mem node boxes hfresh]
  · simp only [registerBox, hfind, set_append_cons]
  · simp only [registerBox, hfind, set_append_cons]
    simp [List.length_append]

/-- Witness for C3: a fresh registration of node 1, then an update of the
same node. -/
theorem register_box_upsert_witness :
    registerBox [] 1 10 ⟨.undef, .undef⟩ false =
      ([⟨1, 10, ⟨.undef, .undef⟩, false⟩], true) ∧
    registerBox [⟨1, 10, ⟨.undef, .undef⟩, false⟩] 1 11 ⟨.num 2, .undef⟩
        true =
      ([⟨1, 11, ⟨.num 2, .undef⟩, true⟩], false) ∧
    (registerBox [⟨1, 10, ⟨.undef, .undef⟩, false⟩] 1 11 ⟨.num 2, .undef⟩
        true).1.length =
      ([⟨1, 10, ⟨.undef, .undef⟩, false⟩] : List BoxesItem).length :=
  register_box_upsert [] [] [] 1 10 11 ⟨.undef, .undef⟩ ⟨.num 2, .undef⟩
    false true ⟨1, 10, ⟨.undef, .undef⟩, false⟩ (by simp) (by simp) rfl

/-- Claim C9: unregistering a node with no matching record leaves the
registry unchanged (a no-op, not an error — the Lean function is total);
unregistering a present node removes exactly its record, every other
record and their relative order untouched. -/
theorem unregister_box_spec (boxes pre suf : List BoxesItem)
    (x : BoxesItem) (node : Nat)
    (habs : node ∉ boxes.map fun b => b.node)
    (hpre : node ∉ pre.map fun b => b.node)
    (hx : x.node = node) :
    unregisterBox boxes node = boxes ∧
    unregisterBox (pre ++ x :: suf) node = pre ++ suf := by
  constructor
  · simp only [unregisterBox, findBoxIdx_of_not_mem node boxes habs]
  · simp only [unregisterBox,
      findBoxIdx_append_first node pre suf x hpre hx, eraseIdx_append_cons]

/-- Witness for C9: removing absent node 1, then removing present
node 1. -/
theorem unregister_box_spec_witness :
    unregisterBox [⟨2, 2, ⟨.undef, .undef⟩, false⟩] 1 =
      [⟨2, 2, ⟨.undef, .undef⟩, false⟩] ∧
    unregisterBox
        [⟨2, 2, ⟨.undef, .undef⟩, false⟩, ⟨1, 1, ⟨.undef, .undef⟩, true⟩]
        1 =
      [⟨2, 2, ⟨.undef, .undef⟩, false⟩] :=
  unregister_box_spec [⟨2, 2, ⟨.undef, .undef⟩, false⟩]
    [⟨2, 2, ⟨.undef, .undef⟩, false⟩] [] ⟨1, 1, ⟨.undef, .undef⟩, true⟩ 1
    (by simp) (by simp) rfl

/-! ### Claims about the size-inference pass -/

theorem scaledVal_undef_iff (v : FlexVal) (sf : ℚ) :
    scaledVal v sf = FlexVal.undef ↔ v = FlexVal.undef := by
  cases v <;> simp [scaledVal]

theorem sizePass_getElem? (sf : ℚ) (m c : Axis) (hrg : Bool)
    (boxes : List Box) (sizes : List NodeSize) (i : Nat) (b : Box)
    (ns : NodeSize) (h1 : boxes[i]? = some b) (h2 : sizes[i]? = some ns) :
    (sizePass sf m c hrg boxes sizes)[i]? =
      some (recalcBox sf m c hrg b ns) := by
  induction boxes generalizing sizes i with
  | nil => simp at h1
  | cons bx bxs ih =>
    cases sizes with
    | nil => simp at h2
    | cons ns0 nss =>
      cases i with
      | zero =>
        simp only [List.getElem?_cons_zero, Option.some.injEq] at h1 h2
        subst h1; subst h2
        simp only [sizePass, List.getElem?_cons_zero]
      | succ j =>
        simp only [List.getElem?_cons_succ] at h1 h2
        simp only [sizePass, List.getElem?_cons_succ]
        exact ih nss j h1 h2

theorem recalcBox_explicit (sf : ℚ) (m c : Axis) (hrg : Bool) (b : Box)
    (ns : NodeSize) (hw : b.flexProps.width ≠ FlexVal.undef)
    (hh : b.flexProps.height ≠ FlexVal.undef) :
    recalcBox sf m c hrg b ns =
      (⟨scaledVal b.flexProps.width sf, scaledVal b.flexProps.height sf⟩,
       false) := by
  have hw' : scaledVal b.flexProps.width sf ≠ FlexVal.undef :=
    fun h0 => hw ((scaledVal_undef_iff _ _).mp h0)
  have hh' : scaledVal b.flexProps.height sf ≠ FlexVal.undef :=
    fun h0 => hh ((scaledVal_undef_iff _ _).mp h0)
  simp [recalcBox, hw', hh']

theorem recalcBox_children (sf : ℚ) (m c : Axis) (hrg : Bool) (b : Box)
    (ns : NodeSize)
    (hu : b.flexProps.width = FlexVal.undef ∨
          b.flexProps.height = FlexVal.undef)
    (hcc : b.childCount ≠ 0) :
    recalcBox sf m c hrg b ns = (ns, false) := by
  have hnot : ¬(scaledVal b.flexProps.width sf ≠ FlexVal.undef ∧
      scaledVal b.flexProps.height sf ≠ FlexVal.undef) := by
    rcases hu with h | h <;> simp [h, scaledVal]
  simp [recalcBox, hnot, hcc]

theorem recalcBox_zero_width (sf : ℚ) (m c : Axis) (hrg : Bool) (b : Box)
    (ns : NodeSize) (hw : b.flexProps.width = FlexVal.num 0)
    (hh : b.flexProps.height = FlexVal.undef) (hcc : b.childCount = 0) :
    recalcBox sf m c hrg b ns =
      (⟨.num ((if hrg then b.obbSize else b.aabbSize) m * sf),
        .num ((if hrg then b.obbSize else b.aabbSize) c * sf)⟩, true) := by
  cases hrg <;> simp [recalcBox, hw, hh, hcc, scaledVal, jsOr, jsTruthy]

theorem recalcBox_zero_height (sf : ℚ) (m c : Axis) (hrg : Bool) (b : Box)
    (ns : NodeSize) (hh : b.flexProps.height = FlexVal.num 0)
    (hw : b.flexProps.width = FlexVal.undef) (hcc : b.childCount = 0) :
    recalcBox sf m c hrg b ns =
      (⟨.num ((if hrg then b.obbSize else b.aabbSize) m * sf),
        .num ((if hrg then b.obbSize else b.aabbSize) c * sf)⟩, true) := by
  cases hrg <;> simp [recalcBox, hw, hh, hcc, scaledVal, jsOr, jsTruthy]

/-- Claim C4: a registered box whose flex props carry both an explicit
width and an explicit height (numbers multiplied by the scale factor
first) gets exactly those values written to its solver node by the size
pass, and no bounding-extent measurement is made for it. -/
theorem size_pass_explicit_skip (sf : ℚ) (m c : Axis) (hrg : Bool)
    (boxes : List Box) (sizes : List NodeSize) (i : Nat) (b : Box)
    (ns : NodeSize) (h1 : boxes[i]? = some b) (h2 : sizes[i]? = some ns)
    (hw : b.flexProps.width ≠ FlexVal.undef)
    (hh : b.flexProps.height ≠ FlexVal.undef) :
    (sizePass sf m c hrg boxes sizes)[i]? =
      some (⟨scaledVal b.flexProps.width sf,
             scaledVal b.flexProps.height sf⟩, false) := by
  rw [sizePass_getElem? sf m c hrg boxes sizes i b ns h1 h2,
    recalcBox_explicit sf m c hrg b ns hw hh]

/-- Witness for C4: width 2 and height 3 under scale factor 10 become
node size (20, 30) with no measurement. -/
theorem size_pass_explicit_skip_witness :
    (sizePass 10 .x .y true
        [⟨⟨.num 2, .num 3⟩, false, 0, fun _ => 7, fun _ => 8⟩]
        [⟨.undef, .undef⟩])[0]? =
      some (⟨.num 20, .num 30⟩, false) := by
  rw [size_pass_explicit_skip 10 .x .y true
    [⟨⟨.num 2, .num 3⟩, false, 0, fun _ => 7, fun _ => 8⟩]
    [⟨.undef, .undef⟩] 0 ⟨⟨.num 2, .num 3⟩, false, 0, fun _ => 7,
      fun _ => 8⟩ ⟨.undef, .undef⟩ rfl rfl (by simp) (by simp)]
  simp [scaledVal]
  norm_num

/-- Claim C8: a registered box without a full explicit size pair whose
solver node has children is skipped entirely by the size pass: no
measurement, and neither width nor height written — the node keeps its
previous size state. -/
theorem size_pass_children_untouched (sf : ℚ) (m c : Axis) (hrg : Bool)
    (boxes : List Box) (sizes : List NodeSize) (i : Nat) (b : Box)
    (ns : NodeSize) (h1 : boxes[i]? = some b) (h2 : sizes[i]? = some ns)
    (hu : b.flexProps.width = FlexVal.undef ∨
          b.flexProps.height = FlexVal.undef)
    (hcc : b.childCount ≠ 0) :
    (sizePass sf m c hrg boxes sizes)[i]? = some (ns, false) := by
  rw [sizePass_getElem? sf m c hrg boxes sizes i b ns h1 h2,
    recalcBox_children sf m c hrg b ns hu hcc]

/-- Witness for C8: a box with only an explicit width and two node
children keeps its previous node size (5, 6), unmeasured. -/
theorem size_pass_children_untouched_witness :
    (sizePass 10 .x .y true
        [⟨⟨.num 1, .undef⟩, false, 2, fun _ => 7, fun _ => 8⟩]
        [⟨.num 5, .num 6⟩])[0]? =
      some (⟨.num 5, .num 6⟩, false) :=
  size_pass_children_untouched 10 .x .y true
    [⟨⟨.num 1, .undef⟩, false, 2, fun _ => 7, fun _ => 8⟩]
    [⟨.num 5, .num 6⟩] 0 ⟨⟨.num 1, .undef⟩, false, 2, fun _ => 7,
      fun _ => 8⟩ ⟨.num 5, .num 6⟩ rfl rfl (Or.inr rfl) (by decide)

/-- Claim C10: in the measurement branch (no full explicit size pair,
leaf node), an explicit numeric width or height of 0 is falsy, so the
falsy-or fallback writes the measured extent along the main
(respectively cross) axis times the scale factor instead of 0. -/
theorem size_pass_zero_treated_absent (sf : ℚ) (m c : Axis) (hrg : Bool)
    (boxes : List Box) (sizes : List NodeSize) (i : Nat) (b : Box)
    (ns : NodeSize) (h1 : boxes[i]? = some b) (h2 : sizes[i]? = some ns) :
    (b.flexProps.width = FlexVal.num 0 →
      b.flexProps.height = FlexVal.undef → b.childCount = 0 →
      (sizePass sf m c hrg boxes sizes)[i]? =
        some (⟨.num ((if hrg then b.obbSize else b.aabbSize) m * sf),
               .num ((if hrg then b.obbSize else b.aabbSize) c * sf)⟩,
              true)) ∧
    (b.flexProps.height = FlexVal.num 0 →
      b.flexProps.width = FlexVal.undef → b.childCount = 0 →
      (sizePass sf m c hrg boxes sizes)[i]? =
        some (⟨.num ((if hrg then b.obbSize else b.aabbSize) m * sf),
               .num ((if hrg then b.obbSize else b.aabbSize) c * sf)⟩,
              true)) := by
  constructor
  · intro hw hh hcc
    rw [sizePass_getElem? sf m c hrg boxes sizes i b ns h1 h2,
      recalcBox_zero_width sf m c hrg b ns hw hh hcc]
  · intro hh hw hcc
    rw [sizePass_getElem? sf m c hrg boxes sizes i b ns h1 h2,
      recalcBox_zero_height sf m c hrg b ns hh hw hcc]

/-- Witness for C10: a leaf box with explicit width 0 and measured
extents 7 (main) and 8 (cross) under scale factor 10 gets node size
(70, 80) from measurement. -/
theorem size_pass_zero_treated_absent_witness :
    (sizePass 10 .x .y true
        [⟨⟨.num 0, .undef⟩, false, 0,
          fun a => match a with | .x => 7 | _ => 8, fun _ => 9⟩]
        [⟨.undef, .undef⟩])[0]? =
      some (⟨.num 70, .num 80⟩, true) := by
  rw [(size_pass_zero_treated_absent 10 .x .y true
    [⟨⟨.num 0, .undef⟩, false, 0,
      fun a => match a with | .x => 7 | _ => 8, fun _ => 9⟩]
    [⟨.undef, .undef⟩] 0 ⟨⟨.num 0, .undef⟩, false, 0,
      fun a => match a with | .x => 7 | _ => 8, fun _ => 9⟩
    ⟨.undef, .undef⟩ rfl rfl).1 rfl rfl rfl]
  norm_num

/-! ### Idempotence of the whole recomputation -/

theorem recalcBox_idem (sf : ℚ) (m c : Axis) (hrg : Bool) (b : Box)
    (ns : NodeSize) :
    recalcBox sf m c hrg b (recalcBox sf m c hrg b ns).1 =
      recalcBox sf m c hrg b ns := by
  by_cases h1 : scaledVal b.flexProps.width sf ≠ FlexVal.undef ∧
      scaledVal b.flexProps.height sf ≠ FlexVal.undef
  · simp [recalcBox, h1]
  · by_cases h2 : b.childCount = 0 <;> simp [recalcBox, h1, h2]

theorem sizePass_idem (sf : ℚ) (m c : Axis) (hrg : Bool) :
    ∀ (boxes : List Box) (sizes : List NodeSize),
      sizePass sf m c hrg boxes
          ((sizePass sf m c hrg boxes sizes).map Prod.fst) =
        sizePass sf m c hrg boxes sizes := by
  intro boxes
  induction boxes with
  | nil => intro sizes; rfl
  | cons b bs ih =>
    intro sizes
    cases sizes with
    | nil => rfl
    | cons ns nss => simp [sizePass, recalcBox_idem, ih]

theorem reflowPass_idem (cfg : FlexConfig) (hrg : Bool)
    (boxes : List Box) (sizes : List NodeSize) :
    reflowPass cfg hrg boxes
        ((reflowPass cfg hrg boxes sizes).map Prod.fst) =
      reflowPass cfg hrg boxes sizes := by
  by_cases h : cfg.disableSizeRecalc
  · simp [reflowPass, h, List.map_map, Function.comp_def]
  · simp [reflowPass, h, sizePass_idem]

/-- Claim C7: the recomputation is idempotent over a fixed input snapshot
(registry, props, content measurements, container configuration, and the
deterministic external solver): feeding the node sizes a reflow produced
back into a second reflow yields the identical output — node sizes,
measurement flags, per-box positions, and the layout-changed
notification. -/
theorem reflow_idempotent (cfg : FlexConfig) (hrg : Bool)
    (solver : Solver) (boxes : List Box) (sizes : List NodeSize) :
    reflow cfg hrg solver boxes
        ((reflow cfg hrg solver boxes sizes).nodeSizes) =
      reflow cfg hrg solver boxes sizes := by
  simp only [reflow]
  rw [reflowPass_idem]

/-! ### The layout-changed notification and its extents -/

theorem layoutExtents_eq (ls : List YogaLayout) :
    layoutExtents ls =
      ⟨(ls.map fun l => l.left).foldl min 0,
       (ls.map fun l => l.top).foldl min 0,
       (ls.map fun l => l.left + l.width).foldl max 0,
       (ls.map fun l => l.top + l.height).foldl max 0⟩ := by
  have h : ∀ (ls : List YogaLayout) (e : Extents),
      ls.foldl stepExtents e =
        ⟨(ls.map fun l => l.left).foldl min e.minX,
         (ls.map fun l => l.top).foldl min e.minY,
         (ls.map fun l => l.left + l.width).foldl max e.maxX,
         (ls.map fun l => l.top + l.height).foldl max e.maxY⟩ := by
    intro ls
    induction ls with
    | nil => intro e; rfl
    | cons l rest ih => intro e; simp [List.foldl_cons, stepExtents, ih]
  exact h ls ⟨0, 0, 0, 0⟩

/-- The box and deterministic solver outcome of the C6 counterexample:
one box whose computed layout sits at left 5 with width 10 (as a padded
or center-justified layout produces), top 0, height 1. -/
def cexBox : Box := ⟨⟨.num 1, .num 1⟩, false, 0, fun _ => 0, fun _ => 0⟩

def cexSolver : Solver := fun _ _ _ => ⟨20, 1, [⟨5, 0, 10, 1⟩]⟩

def cexCfg : FlexConfig := ⟨.xy, 1, false, false, 20, 1, true⟩

/-- Counterexample to claim C6 as stated: with one box whose solver
layout is (left 5, top 0, width 10, height 1) and scale factor 1, the
code notifies onReflow with total width 15 — the extreme values are
seeded at 0, not taken over the boxes alone — while the claimed formula
(max of left+width minus min of left) gives 10. -/
theorem on_reflow_extents_counterexample :
    (reflow cexCfg true cexSolver [cexBox]
        [⟨.undef, .undef⟩]).onReflowCalls = [(15, 1)] ∧
    specTotalWidth [⟨5, 0, 10, 1⟩] 1 = some 10 ∧
    specTotalHeight [⟨5, 0, 10, 1⟩] 1 = some 1 ∧
    (15 : ℚ) ≠ 10 := by
  refine ⟨?_, ?_, ?_, by norm_num⟩
  · simp [reflow, reflowPass, cexCfg, cexSolver, cexBox, sizePass,
      recalcBox, scaledVal, layoutExtents, stepExtents]
    norm_num
  · simp [specTotalWidth]
  · simp [specTotalHeight]

/-- Claim C6 (amended): each completed reflow invokes onReflow exactly
once when it is supplied and not at all otherwise, with totalWidth the
difference between the maximum of 0 and every left+width and the minimum
of 0 and every left, divided by the scale factor (and totalHeight
likewise from top/height): the extent trackers are seeded at 0, so the
result is the bounding extent of the boxes together with the origin,
independent of the requested container size. -/
theorem on_reflow_extents (cfg : FlexConfig) (hrg : Bool)
    (solver : Solver) (boxes : List Box) (sizes : List NodeSize) :
    (let out := reflow cfg hrg solver boxes sizes
     let res := solver (cfg.flexWidth * cfg.scaleFactor)
       (cfg.flexHeight * cfg.scaleFactor) out.nodeSizes
     let ls := (boxes.zip res.layouts).map Prod.snd
     out.onReflowCalls =
       if cfg.hasOnReflow then
         [(((ls.map fun l => l.left + l.width).foldl max 0 -
             (ls.map fun l => l.left).foldl min 0) / cfg.scaleFactor,
           ((ls.map fun l => l.top + l.height).foldl max 0 -
             (ls.map fun l => l.top).foldl min 0) / cfg.scaleFactor)]
       else []) := by
  simp only [reflow, layoutExtents_eq]

end ReactThreeFlex
